import Mathlib

/-
Verification of the sing-quic Hysteria2 core (client `offerNew` / `DialConn` /
`ListenPacket`, server `serverSession.ServeHTTP` / stream hijacker, and the
per-stream TCP request/response state machines) against its specification.

The Go code is shallowly embedded: every pure decision (congestion-controller
selection, URL matching, first-frame latches) is a Lean function translated
from the source; outcomes of external calls (the dialer, the HTTP/3 round
trip, the QUIC stream reads) are supplied as explicit environment values.
Machine integers (`uint64` rates, the `uint32` UDP session counter) are
modelled as `Nat`, with an explicit `% 2^32` where the Go code can wrap.
-/

deriving instance DecidableEq for Except

namespace Hysteria2

/-- Modelled from the spec: the protocol constant `StatusAuthOK` (HTTP status
233); the `internal/protocol` package is not under `src/`. -/
def StatusAuthOK : Nat := 233

/-- Modelled from the spec: the fixed auth URL host (`protocol.URLHost`,
the string `hysteria`); the `internal/protocol` package is not under `src/`. -/
def URLHost : String := "hysteria"

/-- Modelled from the spec: the fixed auth URL path (`protocol.URLPath`,
the string `/auth`); the `internal/protocol` package is not under `src/`. -/
def URLPath : String := "/auth"

/-- Modelled from the spec: the varint frame type tag of a TCP-request stream
frame (`protocol.FrameTypeTCPRequest`). Only its identity matters to the
claims (streams are compared against it), never its numeric value. -/
def FrameTypeTCPRequest : Nat := 1025

/-- Auth request headers as decoded by `protocol.AuthRequestFromHeader`:
the raw password and the advertised client receive rate (bps). -/
structure AuthRequest where
  auth : String
  rx : Nat
deriving DecidableEq

/-- Auth response headers (`protocol.AuthResponse`): whether the server allows
UDP, the server receive rate, and whether rate control is left to BBR. -/
structure AuthResponse where
  udpEnabled : Bool
  rx : Nat
  rxAuto : Bool
deriving DecidableEq

/-- The congestion controller installed on a QUIC connection: either
`hyCC.NewBrutalSender(bps, debug, logger)` or
`SetCongestionController(conn, "bbr", cwnd)`. -/
inductive CongestionControl where
  | brutal (bps : Nat) (debug : Bool)
  | bbr (cwnd : Int)
deriving DecidableEq

/-- The fields of the Go `Client` that the auth handshake and congestion
logic read (set once by `NewClient`). -/
structure ClientCfg where
  brutalDebug : Bool
  sendBPS : Nat
  receiveBPS : Nat
  udpDisabled : Bool
  cwnd : Int
deriving DecidableEq

/-- The observable state of a `clientQUICConnection` built by `offerNew`:
the latched UDP-disabled flag, the installed congestion controller, the
`uint32` UDP session counter and the registered session ids. -/
structure ClientQUICConnection where
  udpDisabled : Bool
  congestion : CongestionControl
  udpSessionID : Nat
  udpConnMap : List Nat
deriving DecidableEq

/-- Environment of one `offerNew` run: the outcomes of the external calls
(dialer, transport construction, HTTP/3 round trip) and, when the round trip
returns, the response status and decoded auth response headers.
`quicConnSet` records whether the dial callback of the transport has populated the
captured QUIC connection pointer (the Go code checks `quicConn != nil`). -/
structure OfferEnv where
  dialOk : Bool
  transportOk : Bool
  quicConnSet : Bool
  roundTripOk : Bool
  status : Nat
  resp : AuthResponse
deriving DecidableEq

/-- Errors returned by `offerNew`; `authenticationFailed` carries the
non-`StatusAuthOK` status code, as in
`E.New("authentication failed, status code: ", response.StatusCode)`. -/
inductive OfferError where
  | dialFailed
  | transportFailed
  | roundTripFailed
  | authenticationFailed (status : Nat)
deriving DecidableEq

/-- Result of one `offerNew` run: the returned value or error, whether
`quicConn.CloseWithError` ran (and with which application error code),
whether `udpConn.Close` ran, whether `loopMessages` was spawned, and the
value written to `c.conn` (`none` when the field was left untouched). -/
structure OfferResult where
  outcome : Except OfferError ClientQUICConnection
  quicClosedWith : Option Nat
  udpClosed : Bool
  spawnedUdpLoop : Bool
  storedConn : Option ClientQUICConnection
deriving DecidableEq

/-- Shallow embedding of `Client.offerNew` (src/unnamed/part_000): the control
flow from dialing, through the auth round trip, to congestion-controller
installation and connection storage, with the outcomes of the external calls
supplied by `env`. -/
def offerNew (c : ClientCfg) (env : OfferEnv) : OfferResult :=
  if env.dialOk = false then
    { outcome := .error .dialFailed, quicClosedWith := none, udpClosed := false,
      spawnedUdpLoop := false, storedConn := none }
  else if env.transportOk = false then
    { outcome := .error .transportFailed, quicClosedWith := none, udpClosed := true,
      spawnedUdpLoop := false, storedConn := none }
  else if env.roundTripOk = false then
    { outcome := .error .roundTripFailed,
      quicClosedWith := if env.quicConnSet then some 0 else none, udpClosed := true,
      spawnedUdpLoop := false, storedConn := none }
  else if env.status ≠ StatusAuthOK then
    { outcome := .error (.authenticationFailed env.status),
      quicClosedWith := if env.quicConnSet then some 0 else none, udpClosed := true,
      spawnedUdpLoop := false, storedConn := none }
  else
    let actualTx : Nat :=
      if env.resp.rx = 0 ∨ env.resp.rx > c.sendBPS then c.sendBPS else env.resp.rx
    let cc : CongestionControl :=
      if env.resp.rxAuto = false ∧ 0 < actualTx then
        .brutal actualTx c.brutalDebug
      else
        .bbr c.cwnd
    let conn : ClientQUICConnection :=
      { udpDisabled := c.udpDisabled || !env.resp.udpEnabled, congestion := cc,
        udpSessionID := 0, udpConnMap := [] }
    { outcome := .ok conn, quicClosedWith := none, udpClosed := false,
      spawnedUdpLoop := !c.udpDisabled, storedConn := some conn }

/-- The congestion controller of a successful `offerNew`, `none` on failure. -/
def offeredCongestion (res : OfferResult) : Option CongestionControl :=
  match res.outcome with
  | .ok conn => some conn.congestion
  | .error _ => none

/-- The negotiated client tx as the claim words it: the server rx from the
auth response, replaced by the client send rate when that rx is 0 or
exceeds it. -/
def negotiatedTx (respRx sendBPS : Nat) : Nat :=
  if respRx = 0 ∨ respRx > sendBPS then sendBPS else respRx

/-- The fields of the Go `Service` that `serverSession.ServeHTTP` reads. -/
structure ServiceCfg where
  brutalDebug : Bool
  sendBPS : Nat
  receiveBPS : Nat
  ignoreClientBandwidth : Bool
  udpDisabled : Bool
  cwnd : Int
deriving DecidableEq

/-- The mutable auth state of a `serverSession`: the `authenticated` flag and
the authenticated user (`none` before the first accepted auth request,
standing for the Go zero value). -/
structure SessionState (U : Type) where
  authenticated : Bool
  authUser : Option U
deriving DecidableEq

/-- The parts of an HTTP request that `ServeHTTP` inspects: the routing
triple and the auth headers already decoded
(`protocol.AuthRequestFromHeader`). -/
structure HttpRequest where
  method : String
  host : String
  path : String
  authHeader : String
  rxHeader : Nat
deriving DecidableEq

/-- The routing test of `ServeHTTP`:
`r.Method == http.MethodPost && r.Host == protocol.URLHost && r.URL.Path == protocol.URLPath`. -/
def isAuthURL (r : HttpRequest) : Bool :=
  r.method == "POST" && r.host == URLHost && r.path == URLPath

/-- The auth response headers the server writes
(`protocol.AuthResponseToHeader` with `!s.udpDisabled`, `s.receiveBPS`,
`s.ignoreClientBandwidth`). -/
def serverAuthResponse (svc : ServiceCfg) : AuthResponse :=
  { udpEnabled := !svc.udpDisabled, rx := svc.receiveBPS, rxAuto := svc.ignoreClientBandwidth }

/-- The observable effects of one `ServeHTTP` call: the session state after
the call, whether the request went to the masquerade handler, the auth
response headers and status written (if any), the congestion controller
installed during this call (if any), whether the datagram loop was spawned,
and whether the QUIC connection was closed (the `ServeHTTP` body contains no
close call on any path; closing happens only via context cancellation). -/
structure ServeResult (U : Type) where
  state : SessionState U
  masqueraded : Bool
  authResponseSent : Option AuthResponse
  wroteStatus : Option Nat
  installedCC : Option CongestionControl
  spawnedUdpLoop : Bool
  closedConn : Bool
deriving DecidableEq

/-- Shallow embedding of `serverSession.ServeHTTP`
(src/hysteria2/service.go): auth-URL routing, the already-authenticated
replay branch, the user-map lookup, and the congestion/auth-response effects
of an accepted auth request. -/
def serveHTTP {U : Type} (svc : ServiceCfg) (userMap : List (String × U))
    (s : SessionState U) (r : HttpRequest) : ServeResult U :=
  if isAuthURL r then
    if s.authenticated then
      { state := s, masqueraded := false,
        authResponseSent := some (serverAuthResponse svc),
        wroteStatus := some StatusAuthOK, installedCC := none,
        spawnedUdpLoop := false, closedConn := false }
    else
      match userMap.lookup r.authHeader with
      | none =>
        { state := s, masqueraded := true, authResponseSent := none,
          wroteStatus := none, installedCC := none,
          spawnedUdpLoop := false, closedConn := false }
      | some user =>
        let cc : CongestionControl :=
          if svc.ignoreClientBandwidth = false ∧ 0 < r.rxHeader then
            .brutal
              (if 0 < svc.sendBPS ∧ svc.sendBPS < r.rxHeader then svc.sendBPS
               else r.rxHeader)
              svc.brutalDebug
          else
            .bbr svc.cwnd
        { state := { authenticated := true, authUser := some user },
          masqueraded := false,
          authResponseSent := some (serverAuthResponse svc),
          wroteStatus := some StatusAuthOK, installedCC := some cc,
          spawnedUdpLoop := !svc.udpDisabled, closedConn := false }
  else
    { state := s, masqueraded := true, authResponseSent := none,
      wroteStatus := none, installedCC := none,
      spawnedUdpLoop := false, closedConn := false }

/-- A session serving a list of requests in order, counting how many of the
calls installed a congestion controller. -/
def serveList {U : Type} (svc : ServiceCfg) (userMap : List (String × U)) :
    SessionState U → List HttpRequest → SessionState U × Nat
  | s, [] => (s, 0)
  | s, r :: rs =>
    let res := serveHTTP svc userMap s r
    let rest := serveList svc userMap res.state rs
    (rest.1, (if res.installedCC.isSome then 1 else 0) + rest.2)

/-- Shallow embedding of `serverSession.handleStream0`: whether the stream
hijacker takes ownership of an inbound stream, given the session
authentication state, whether the HTTP/3 peek reported an error, and the
first frame type of the stream. The Go function always returns a `nil` error. -/
def handleStream0 (authenticated : Bool) (peekErr : Bool) (frameType : Nat) : Bool :=
  if !authenticated || peekErr then false
  else if frameType != FrameTypeTCPRequest then false
  else true

/-- The `handler.NewConnection` invocation made by `handleStream`: the
authenticated user placed in the context, the session source, and the
destination string read from the TCP-request frame (parsed by the external
`M.ParseSocksaddr`). -/
structure NewConnectionCall (U : Type) where
  user : U
  source : String
  destination : String
deriving DecidableEq

/-- Shallow embedding of `serverSession.handleStream`: the result of the
external `protocol.ReadTCPRequest` is supplied as `readTCPRequest` (`none`
for a read error); on success the handler is invoked with the authenticated
user context and the parsed destination. -/
def handleStream {U : Type} (authUser : U) (source : String)
    (readTCPRequest : Option String) : Except Unit (NewConnectionCall U) :=
  match readTCPRequest with
  | none => .error ()
  | some destinationString =>
    .ok { user := authUser, source := source, destination := destinationString }

/-- The first-frame latches of a `clientConn` stream wrapper. -/
structure ClientConnState where
  requestWritten : Bool
  responseRead : Bool
deriving DecidableEq

/-- Errors surfaced by `clientConn.Read`: a wrapped QUIC error
(`baderror.WrapQUIC`) or the remote error built from an error-status
TCP-response frame (`E.New("remote error: ", errorMessage)`). -/
inductive ReadError where
  | wrappedQUIC
  | remoteError (message : String)
deriving DecidableEq

/-- What the underlying QUIC stream yields to one `clientConn.Read` call:
the result of the external `protocol.ReadTCPResponse` (an error, or the
status bit and message), and the byte count and error of the subsequent raw
`Stream.Read`. -/
structure StreamReadEnv where
  tcpResponse : Except Unit (Bool × String)
  passthroughN : Nat
  passthroughErr : Bool
deriving DecidableEq

/-- Result of one `clientConn.Read` call: the reported byte count, the
returned error, and the latch state after the call. -/
structure ReadResult where
  n : Nat
  err : Option ReadError
  state : ClientConnState
deriving DecidableEq

/-- Shallow embedding of `clientConn.Read` (src/unnamed/part_000): the
pass-through branch once `responseRead` is set, and otherwise the
TCP-response frame consumption with its three outcomes (read error,
error status, OK status). -/
def clientConnRead (st : ClientConnState) (env : StreamReadEnv) : ReadResult :=
  if st.responseRead then
    { n := env.passthroughN,
      err := if env.passthroughErr then some .wrappedQUIC else none, state := st }
  else
    match env.tcpResponse with
    | .error _ => { n := 0, err := some .wrappedQUIC, state := st }
    | .ok (status, errorMessage) =>
      if status = false then
        { n := 0, err := some (.remoteError errorMessage), state := st }
      else
        { n := env.passthroughN,
          err := if env.passthroughErr then some .wrappedQUIC else none,
          state := { st with responseRead := true } }

/-- Errors of `Client.ListenPacket`: `os.ErrInvalid` when UDP is locally
disabled, a failed `offer`, or `E.New("UDP disabled by server")`. -/
inductive ListenPacketError where
  | errInvalid
  | offerFailed
  | udpDisabledByServer
deriving DecidableEq

/-- Result of one `ListenPacket` call: the allocated session id with the
connection state after registration (or the error), and whether `offer` was
called at all. -/
structure ListenPacketResult where
  outcome : Except ListenPacketError (Nat × ClientQUICConnection)
  offerAttempted : Bool
deriving DecidableEq

/-- Shallow embedding of `Client.ListenPacket` (src/unnamed/part_000): the
local UDP guard, the per-connection UDP guard, and session-id allocation
(the `uint32` counter increments modulo `2^32`; the new packet conn is
registered under the old counter value). -/
def listenPacket (cUdpDisabled : Bool)
    (offerResult : Option ClientQUICConnection) : ListenPacketResult :=
  if cUdpDisabled then
    { outcome := .error .errInvalid, offerAttempted := false }
  else
    match offerResult with
    | none => { outcome := .error .offerFailed, offerAttempted := true }
    | some conn =>
      if conn.udpDisabled then
        { outcome := .error .udpDisabledByServer, offerAttempted := true }
      else
        { outcome := .ok (conn.udpSessionID,
            { conn with udpSessionID := (conn.udpSessionID + 1) % 4294967296,
                        udpConnMap := conn.udpSessionID :: conn.udpConnMap }),
          offerAttempted := true }

/-- The single latch of a `serverConn` stream wrapper. -/
structure ServerConnState where
  responseWritten : Bool
deriving DecidableEq

/-- A TCP-response frame as written by `protocol.WriteTCPResponse(status,
message, payload)`. -/
inductive TCPResponseFrame where
  | frame (status : Bool) (message : String) (payload : List Nat)
deriving DecidableEq

/-- The operations a handler may perform on a `serverConn`. -/
inductive ServerConnOp where
  | handshakeSuccess
  | handshakeFailure (message : String)
  | write (p : List Nat)
deriving DecidableEq

/-- The value returned to the caller by one `serverConn` operation: for the
handshake methods, whether the returned error is `os.ErrClosed`; for
`Write`, the reported byte count. -/
inductive ServerConnRet where
  | hsRet (errClosed : Bool)
  | writeRet (n : Nat)
deriving DecidableEq

/-- The effects of one `serverConn` operation: the latch state after it, the
TCP-response frames it wrote to the stream (pass-through payload bytes are
not response frames), and the value returned to the caller. Stream writes
are modelled as succeeding; the latch is set before any write either way. -/
structure ServerConnStep where
  state : ServerConnState
  responseFrames : List TCPResponseFrame
  ret : ServerConnRet
deriving DecidableEq

/-- Shallow embedding of `serverConn.HandshakeSuccess`,
`serverConn.HandshakeFailure` and `serverConn.Write`
(src/hysteria2/service.go). -/
def serverConnStep (st : ServerConnState) : ServerConnOp → ServerConnStep
  | .handshakeSuccess =>
    if st.responseWritten then
      { state := st, responseFrames := [], ret := .hsRet false }
    else
      { state := { responseWritten := true },
        responseFrames := [.frame true "" []], ret := .hsRet false }
  | .handshakeFailure message =>
    if st.responseWritten then
      { state := st, responseFrames := [], ret := .hsRet true }
    else
      { state := { responseWritten := true },
        responseFrames := [.frame false message []], ret := .hsRet false }
  | .write p =>
    if st.responseWritten = false then
      { state := { responseWritten := true },
        responseFrames := [.frame true "" p], ret := .writeRet p.length }
    else
      { state := st, responseFrames := [], ret := .writeRet p.length }

/-- A `serverConn` performing a list of operations in order, counting the
TCP-response frames written across the whole trace. -/
def serverConnTrace (st : ServerConnState) :
    List ServerConnOp → ServerConnState × Nat
  | [] => (st, 0)
  | op :: ops =>
    let step := serverConnStep st op
    let rest := serverConnTrace step.state ops
    (rest.1, step.responseFrames.length + rest.2)

/-- Concrete client configuration for evaluating the client congestion policy. -/
def c1Client : ClientCfg :=
  { brutalDebug := false, sendBPS := 100, receiveBPS := 50, udpDisabled := false, cwnd := 32 }

/-- Concrete successful auth environment with a nonzero, non-auto server rx. -/
def c1Env : OfferEnv :=
  { dialOk := true, transportOk := true, quicConnSet := true, roundTripOk := true,
    status := 233, resp := { udpEnabled := true, rx := 50, rxAuto := false } }

/-- Concrete service configuration with `ignoreClientBandwidth` unset. -/
def c2Svc : ServiceCfg :=
  { brutalDebug := false, sendBPS := 0, receiveBPS := 0, ignoreClientBandwidth := false,
    udpDisabled := false, cwnd := 0 }

/-- Concrete user map holding the password `p`. -/
def c2UserMap : List (String × Nat) := [("p", 7)]

/-- Concrete session state before authentication. -/
def c2Session : SessionState Nat := { authenticated := false, authUser := none }

/-- Concrete auth request with a known password and `rx = 0`. -/
def c2Req : HttpRequest :=
  { method := "POST", host := "hysteria", path := "/auth", authHeader := "p", rxHeader := 0 }

/-- Concrete client configuration with UDP enabled locally. -/
def c3Client : ClientCfg :=
  { brutalDebug := false, sendBPS := 0, receiveBPS := 0, udpDisabled := false, cwnd := 0 }

/-- Concrete successful auth environment in which the server disables UDP. -/
def c3Env : OfferEnv :=
  { dialOk := true, transportOk := true, quicConnSet := true, roundTripOk := true,
    status := 233, resp := { udpEnabled := false, rx := 0, rxAuto := true } }

/-- Concrete service configuration for the masquerade property. -/
def c4Svc : ServiceCfg :=
  { brutalDebug := false, sendBPS := 0, receiveBPS := 0, ignoreClientBandwidth := false,
    udpDisabled := false, cwnd := 0 }

/-- Concrete user map for the masquerade property. -/
def c4UserMap : List (String × Nat) := [("p", 1)]

/-- Concrete unauthenticated session state for the masquerade property. -/
def c4Session : SessionState Nat := { authenticated := false, authUser := none }

/-- Concrete request whose routing triple differs from the auth URL. -/
def c4ReqWrongPath : HttpRequest :=
  { method := "GET", host := "example.com", path := "/", authHeader := "", rxHeader := 0 }

/-- Concrete auth request carrying an unknown password. -/
def c4ReqBadPw : HttpRequest :=
  { method := "POST", host := "hysteria", path := "/auth", authHeader := "wrong", rxHeader := 0 }

/-- Concrete service configuration for the install-once property. -/
def c5Svc : ServiceCfg :=
  { brutalDebug := false, sendBPS := 0, receiveBPS := 0, ignoreClientBandwidth := false,
    udpDisabled := false, cwnd := 0 }

/-- Concrete user map for the install-once property. -/
def c5UserMap : List (String × Nat) := [("p", 1)]

/-- Concrete already-authenticated session state. -/
def c5AuthState : SessionState Nat := { authenticated := true, authUser := some 1 }

/-- Concrete unauthenticated session state. -/
def c5FreshState : SessionState Nat := { authenticated := false, authUser := none }

/-- Concrete auth request with a known password. -/
def c5Req : HttpRequest :=
  { method := "POST", host := "hysteria", path := "/auth", authHeader := "p", rxHeader := 5 }

/-- Concrete client configuration for the auth-failure cleanup property. -/
def c6Client : ClientCfg :=
  { brutalDebug := false, sendBPS := 0, receiveBPS := 0, udpDisabled := false, cwnd := 0 }

/-- Concrete environment in which the auth round trip returns status 404. -/
def c6Env : OfferEnv :=
  { dialOk := true, transportOk := true, quicConnSet := true, roundTripOk := true,
    status := 404, resp := { udpEnabled := true, rx := 0, rxAuto := false } }

/-- Concrete client stream latch state before the response has been read. -/
def c8State : ClientConnState := { requestWritten := true, responseRead := false }

/-- Concrete stream environment delivering an error-status TCP response. -/
def c8EnvErr : StreamReadEnv :=
  { tcpResponse := .ok (false, "boom"), passthroughN := 7, passthroughErr := false }

/-- Concrete stream environment delivering an OK-status TCP response. -/
def c8EnvOk : StreamReadEnv :=
  { tcpResponse := .ok (true, ""), passthroughN := 7, passthroughErr := false }

/-- Concrete client connection with UDP enabled and two registered sessions. -/
def c9Conn : ClientQUICConnection :=
  { udpDisabled := false, congestion := .bbr 0, udpSessionID := 2, udpConnMap := [1, 0] }

/-- Concrete client connection whose auth response disabled UDP. -/
def c9ConnDisabled : ClientQUICConnection :=
  { udpDisabled := true, congestion := .bbr 0, udpSessionID := 0, udpConnMap := [] }

/-- Claim C1. On the client, after a successful auth round trip, the
congestion controller is installed as follows: compute the negotiated tx as
the auth response rx, replaced by the configured send rate when that rx is 0
or exceeds it; if the auth response has `rxAuto` true or the negotiated tx is
0, install BBR with the configured initial window, otherwise install Brutal
at the negotiated tx. -/
theorem client_congestion_policy (c : ClientCfg) (env : OfferEnv)
    (hdial : env.dialOk = true) (htrans : env.transportOk = true)
    (hrt : env.roundTripOk = true) (hstatus : env.status = StatusAuthOK) :
    offeredCongestion (offerNew c env) =
      some (if env.resp.rxAuto = true ∨ negotiatedTx env.resp.rx c.sendBPS = 0 then
              CongestionControl.bbr c.cwnd
            else
              CongestionControl.brutal (negotiatedTx env.resp.rx c.sendBPS) c.brutalDebug) := by
  obtain ⟨d, t, q, rt, stt, resp⟩ := env
  subst hdial; subst htrans; subst hrt; subst hstatus
  show some (if resp.rxAuto = false ∧ 0 < negotiatedTx resp.rx c.sendBPS then
               CongestionControl.brutal (negotiatedTx resp.rx c.sendBPS) c.brutalDebug
             else CongestionControl.bbr c.cwnd) = _
  cases hra : resp.rxAuto
  · rcases Nat.eq_zero_or_pos (negotiatedTx resp.rx c.sendBPS) with hz | hz
    · simp [hz]
    · simp [hz, Nat.pos_iff_ne_zero.mp hz]
  · simp

/-- Witness for `client_congestion_policy` at a concrete configuration:
server rx 50, client send rate 100, `rxAuto` false, hence Brutal at 50. -/
theorem client_congestion_policy_witness :
    offeredCongestion (offerNew c1Client c1Env) = some (CongestionControl.brutal 50 false) :=
  (client_congestion_policy c1Client c1Env rfl rfl rfl rfl).trans (by decide)

/-- Counterexample to claim C2 as stated: with `ignoreClientBandwidth` unset
and a request rx of 0, an accepted auth request installs BBR, yet the auth
response does not advertise rx as auto (`rxAuto` is false, not true). -/
theorem server_rx_auto_counterexample :
    (serveHTTP c2Svc c2UserMap c2Session c2Req).installedCC = some (CongestionControl.bbr 0) ∧
    (serveHTTP c2Svc c2UserMap c2Session c2Req).authResponseSent =
      some { udpEnabled := true, rx := 0, rxAuto := false } ∧
    c2Svc.ignoreClientBandwidth = false ∧ c2Req.rxHeader = 0 := by
  refine ⟨rfl, rfl, rfl, rfl⟩

/-- Claim C2 as amended. On an accepted auth request: if
`ignoreClientBandwidth` is set or the request rx is 0, BBR is installed with
the configured initial window; otherwise Brutal is installed at the smaller
of the service send rate (when positive) and the request rx. The auth
response advertises rx as auto exactly when `ignoreClientBandwidth` is set,
not in the rx-0 case. -/
theorem server_congestion_policy {U : Type} (svc : ServiceCfg) (um : List (String × U))
    (s : SessionState U) (r : HttpRequest) (user : U)
    (hauth : s.authenticated = false) (hurl : isAuthURL r = true)
    (huser : um.lookup r.authHeader = some user) :
    (serveHTTP svc um s r).installedCC =
      some (if svc.ignoreClientBandwidth = true ∨ r.rxHeader = 0 then
              CongestionControl.bbr svc.cwnd
            else
              CongestionControl.brutal
                (if 0 < svc.sendBPS ∧ svc.sendBPS < r.rxHeader then svc.sendBPS
                 else r.rxHeader)
                svc.brutalDebug) ∧
    (serveHTTP svc um s r).authResponseSent = some (serverAuthResponse svc) ∧
    (serverAuthResponse svc).rxAuto = svc.ignoreClientBandwidth := by
  refine ⟨?_, ?_, rfl⟩
  · unfold serveHTTP
    rw [hurl, hauth, huser]
    show some (if svc.ignoreClientBandwidth = false ∧ 0 < r.rxHeader then
                 CongestionControl.brutal
                   (if 0 < svc.sendBPS ∧ svc.sendBPS < r.rxHeader then svc.sendBPS
                    else r.rxHeader) svc.brutalDebug
               else CongestionControl.bbr svc.cwnd) = _
    cases hib : svc.ignoreClientBandwidth
    · rcases Nat.eq_zero_or_pos r.rxHeader with hz | hz
      · simp [hz]
      · simp [hz, Nat.pos_iff_ne_zero.mp hz]
    · simp
  · unfold serveHTTP
    rw [hurl, hauth, huser]
    rfl

/-- Witness for `server_congestion_policy`: the concrete accepted auth
request with rx 0 yields BBR and a non-auto auth response. -/
theorem server_congestion_policy_witness :
    (serveHTTP c2Svc c2UserMap c2Session c2Req).installedCC = some (CongestionControl.bbr 0) ∧
    (serveHTTP c2Svc c2UserMap c2Session c2Req).authResponseSent = some (serverAuthResponse c2Svc) ∧
    (serverAuthResponse c2Svc).rxAuto = c2Svc.ignoreClientBandwidth :=
  server_congestion_policy c2Svc c2UserMap c2Session c2Req 7 rfl rfl rfl

/-- Counterexample to claim C3 as stated: with UDP enabled locally but
disabled by the server (auth response `udpEnabled` false), the receive loop
is nevertheless spawned after a successful auth handshake. -/
theorem client_udp_loop_counterexample :
    (offerNew c3Client c3Env).spawnedUdpLoop = true ∧
    c3Client.udpDisabled = false ∧ c3Env.resp.udpEnabled = false ∧
    (offerNew c3Client c3Env).outcome =
      .ok { udpDisabled := true, congestion := CongestionControl.bbr 0,
            udpSessionID := 0, udpConnMap := [] } := by
  refine ⟨rfl, rfl, rfl, rfl⟩

/-- Claim C3 as amended. After a successful auth handshake, the receive loop
is spawned exactly when UDP is enabled locally, regardless of the peer; the
peer side only enters the stored connection `udpDisabled` flag (which
`ListenPacket` checks). -/
theorem client_udp_loop_local_only (c : ClientCfg) (env : OfferEnv)
    (hdial : env.dialOk = true) (htrans : env.transportOk = true)
    (hrt : env.roundTripOk = true) (hstatus : env.status = StatusAuthOK) :
    (offerNew c env).spawnedUdpLoop = !c.udpDisabled ∧
    ∀ conn : ClientQUICConnection, (offerNew c env).outcome = .ok conn →
      conn.udpDisabled = (c.udpDisabled || !env.resp.udpEnabled) := by
  constructor
  · simp [offerNew, hdial, htrans, hrt, hstatus]
  · intro conn hc
    simp only [offerNew, hdial, htrans, hrt, hstatus, ne_eq, not_true_eq_false,
      Bool.true_eq_false, if_false, ite_false] at hc
    cases hc
    rfl

/-- Witness for `client_udp_loop_local_only`: with local UDP enabled and the
server disabling UDP, the loop is spawned and the stored flag records the
server refusal. -/
theorem client_udp_loop_local_only_witness :
    (offerNew c3Client c3Env).spawnedUdpLoop = !c3Client.udpDisabled ∧
    ({ udpDisabled := true, congestion := CongestionControl.bbr 0,
       udpSessionID := 0, udpConnMap := [] } : ClientQUICConnection).udpDisabled =
      (c3Client.udpDisabled || !c3Env.resp.udpEnabled) := by
  refine ⟨(client_udp_loop_local_only c3Client c3Env rfl rfl rfl rfl).1, ?_⟩
  exact (client_udp_loop_local_only c3Client c3Env rfl rfl rfl rfl).2 _ rfl

/-- Claim C6. When the auth round trip completes with a status other than
`StatusAuthOK`, `offerNew` closes the QUIC connection with application error
code 0 and closes the underlying UDP socket, returns an
authentication-failed error carrying that status code, and does not replace
the stored client connection. -/
theorem offer_auth_failure_cleanup (c : ClientCfg) (env : OfferEnv)
    (hdial : env.dialOk = true) (htrans : env.transportOk = true)
    (hrt : env.roundTripOk = true) (hq : env.quicConnSet = true)
    (hs : env.status ≠ StatusAuthOK) :
    (offerNew c env).outcome = .error (.authenticationFailed env.status) ∧
    (offerNew c env).quicClosedWith = some 0 ∧
    (offerNew c env).udpClosed = true ∧
    (offerNew c env).storedConn = none := by
  simp [offerNew, hdial, htrans, hrt, hq, hs]

/-- Witness for `offer_auth_failure_cleanup` at the concrete status 404. -/
theorem offer_auth_failure_cleanup_witness :
    (offerNew c6Client c6Env).outcome = .error (.authenticationFailed 404) ∧
    (offerNew c6Client c6Env).quicClosedWith = some 0 ∧
    (offerNew c6Client c6Env).udpClosed = true ∧
    (offerNew c6Client c6Env).storedConn = none := by
  have h := offer_auth_failure_cleanup c6Client c6Env rfl rfl rfl rfl (by decide)
  simpa [c6Env] using h

/-- Claim C4. On a session that is not yet authenticated, every request
whose routing triple differs from the auth URL, and every auth request whose
password is not in the user map, goes to the masquerade handler; the
`authenticated` flag stays false, the authenticated user is unchanged, and
the QUIC connection is not closed. -/
theorem masquerade_property {U : Type} (svc : ServiceCfg) (um : List (String × U))
    (s : SessionState U) (r : HttpRequest)
    (hauth : s.authenticated = false)
    (h : isAuthURL r = false ∨ um.lookup r.authHeader = none) :
    (serveHTTP svc um s r).masqueraded = true ∧
    (serveHTTP svc um s r).state.authenticated = false ∧
    (serveHTTP svc um s r).state.authUser = s.authUser ∧
    (serveHTTP svc um s r).closedConn = false := by
  by_cases hu : isAuthURL r = true
  · rcases h with h | h
    · rw [hu] at h; exact absurd h (by simp)
    · unfold serveHTTP
      rw [hu, hauth, h]
      exact ⟨rfl, hauth, rfl, rfl⟩
  · rw [Bool.not_eq_true] at hu
    unfold serveHTTP
    rw [hu]
    exact ⟨rfl, hauth, rfl, rfl⟩

/-- Witness for `masquerade_property`: a GET to a non-auth path and an auth
POST with an unknown password both masquerade and leave the session state
untouched without closing the connection. -/
theorem masquerade_property_witness :
    ((serveHTTP c4Svc c4UserMap c4Session c4ReqWrongPath).masqueraded = true ∧
     (serveHTTP c4Svc c4UserMap c4Session c4ReqWrongPath).state.authenticated = false ∧
     (serveHTTP c4Svc c4UserMap c4Session c4ReqWrongPath).state.authUser = c4Session.authUser ∧
     (serveHTTP c4Svc c4UserMap c4Session c4ReqWrongPath).closedConn = false) ∧
    ((serveHTTP c4Svc c4UserMap c4Session c4ReqBadPw).masqueraded = true ∧
     (serveHTTP c4Svc c4UserMap c4Session c4ReqBadPw).state.authenticated = false ∧
     (serveHTTP c4Svc c4UserMap c4Session c4ReqBadPw).state.authUser = c4Session.authUser ∧
     (serveHTTP c4Svc c4UserMap c4Session c4ReqBadPw).closedConn = false) :=
  ⟨masquerade_property c4Svc c4UserMap c4Session c4ReqWrongPath rfl (Or.inl rfl),
   masquerade_property c4Svc c4UserMap c4Session c4ReqBadPw rfl (Or.inr rfl)⟩

/-- Helper: a call on an already-authenticated session leaves the session
state unchanged and installs no congestion controller. -/
theorem serveHTTP_state_of_authenticated {U : Type} (svc : ServiceCfg)
    (um : List (String × U)) (s : SessionState U) (r : HttpRequest)
    (h : s.authenticated = true) :
    (serveHTTP svc um s r).state = s ∧ (serveHTTP svc um s r).installedCC = none := by
  by_cases hu : isAuthURL r = true
  · unfold serveHTTP; rw [hu, h]; exact ⟨rfl, rfl⟩
  · rw [Bool.not_eq_true] at hu
    unfold serveHTTP; rw [hu]; exact ⟨rfl, rfl⟩

/-- Helper: from an authenticated session no later request installs a
congestion controller. -/
theorem serveList_count_of_authenticated {U : Type} (svc : ServiceCfg)
    (um : List (String × U)) (rs : List HttpRequest) :
    ∀ s : SessionState U, s.authenticated = true → (serveList svc um s rs).2 = 0 := by
  induction rs with
  | nil => intro s h; rfl
  | cons r rs ih =>
    intro s h
    have hf := serveHTTP_state_of_authenticated svc um s r h
    have hrest := ih (serveHTTP svc um s r).state (by rw [hf.1]; exact h)
    simp [serveList, hf.2, hrest]

/-- Helper: a call that installs a congestion controller leaves the session
authenticated. -/
theorem serveHTTP_install_implies_auth {U : Type} (svc : ServiceCfg)
    (um : List (String × U)) (s : SessionState U) (r : HttpRequest)
    (h : (serveHTTP svc um s r).installedCC.isSome = true) :
    (serveHTTP svc um s r).state.authenticated = true := by
  by_cases hu : isAuthURL r = true
  · cases ha : s.authenticated
    · cases hl : um.lookup r.authHeader with
      | none =>
        unfold serveHTTP at h ⊢
        rw [hu, ha, hl] at h ⊢
        exact absurd h (by simp)
      | some user =>
        unfold serveHTTP
        rw [hu, ha, hl]
        rfl
    · unfold serveHTTP; rw [hu, ha]; exact ha
  · rw [Bool.not_eq_true] at hu
    unfold serveHTTP at h ⊢
    rw [hu] at h ⊢
    exact absurd h (by simp)

/-- Helper: any trace of requests installs at most one congestion
controller. -/
theorem serveList_count_le_one {U : Type} (svc : ServiceCfg)
    (um : List (String × U)) (rs : List HttpRequest) :
    ∀ s : SessionState U, (serveList svc um s rs).2 ≤ 1 := by
  induction rs with
  | nil => intro s; simp [serveList]
  | cons r rs ih =>
    intro s
    by_cases h : (serveHTTP svc um s r).installedCC.isSome = true
    · have ha := serveHTTP_install_implies_auth svc um s r h
      have hz := serveList_count_of_authenticated svc um rs _ ha
      simp [serveList, h, hz]
    · have hrest := ih (serveHTTP svc um s r).state
      rw [Bool.not_eq_true] at h
      simp [serveList, h]
      exact hrest

/-- Claim C5. On every server session, the congestion controller is
installed at most once across any sequence of requests; a second auth POST
on an already-authenticated session re-emits the auth response headers and
`StatusAuthOK` without installing a controller and without changing the
session state (in particular the authenticated user). -/
theorem server_cc_installed_once {U : Type} (svc : ServiceCfg) (um : List (String × U)) :
    (∀ (s : SessionState U) (r : HttpRequest),
        s.authenticated = true → isAuthURL r = true →
        serveHTTP svc um s r =
          { state := s, masqueraded := false,
            authResponseSent := some (serverAuthResponse svc),
            wroteStatus := some StatusAuthOK, installedCC := none,
            spawnedUdpLoop := false, closedConn := false }) ∧
    (∀ (s : SessionState U) (rs : List HttpRequest), (serveList svc um s rs).2 ≤ 1) := by
  constructor
  · intro s r ha hu
    unfold serveHTTP
    rw [hu, ha]
    rfl
  · intro s rs
    exact serveList_count_le_one svc um rs s

/-- Witness for `server_cc_installed_once`: the concrete replay behavior on
an authenticated session, and the at-most-one bound on a two-request trace
that authenticates on its first request. -/
theorem server_cc_installed_once_witness :
    serveHTTP c5Svc c5UserMap c5AuthState c5Req =
      { state := c5AuthState, masqueraded := false,
        authResponseSent := some (serverAuthResponse c5Svc),
        wroteStatus := some StatusAuthOK, installedCC := none,
        spawnedUdpLoop := false, closedConn := false } ∧
    (serveList c5Svc c5UserMap c5FreshState [c5Req, c5Req]).2 ≤ 1 :=
  ⟨(server_cc_installed_once c5Svc c5UserMap).1 c5AuthState c5Req rfl rfl,
   (server_cc_installed_once c5Svc c5UserMap).2 c5FreshState [c5Req, c5Req]⟩

/-- Claim C7. The stream hijacker takes ownership of an inbound stream
exactly when the session is authenticated, the HTTP/3 peek reported no
error, and the first frame type is `FrameTypeTCPRequest`; otherwise the
stream is released back to HTTP/3 handling (the hijacker returns false).
When it does take ownership, `handleStream` reads the TCP-request frame and
invokes the handler with the authenticated user and the parsed destination;
a frame read error invokes no handler. -/
theorem stream_hijacker_spec {U : Type} :
    (∀ (authenticated peekErr : Bool) (frameType : Nat),
        handleStream0 authenticated peekErr frameType =
          (authenticated && !peekErr && (frameType == FrameTypeTCPRequest))) ∧
    (∀ (authUser : U) (src destination : String),
        handleStream authUser src (some destination) =
          .ok { user := authUser, source := src, destination := destination }) ∧
    (∀ (authUser : U) (src : String),
        handleStream authUser src none = .error ()) := by
  refine ⟨?_, fun _ _ _ => rfl, fun _ _ => rfl⟩
  intro a e ft
  cases a <;> cases e <;> simp [handleStream0] <;>
    by_cases hf : ft = FrameTypeTCPRequest <;> simp [hf]

/-- Claim C8. On a client stream whose response has not yet been read, the
first read consumes a TCP-response frame: on OK status it latches
`responseRead` and passes the read through to the stream, and all later
reads pass through; on error status it returns zero bytes and a remote
error carrying the server message, and leaves `responseRead` false. -/
theorem client_first_read_response (st : ClientConnState) (env : StreamReadEnv)
    (msg : String) (h : st.responseRead = false) :
    (env.tcpResponse = .ok (false, msg) →
        clientConnRead st env = { n := 0, err := some (.remoteError msg), state := st }) ∧
    (env.tcpResponse = .ok (true, msg) →
        clientConnRead st env =
          { n := env.passthroughN,
            err := if env.passthroughErr then some .wrappedQUIC else none,
            state := { st with responseRead := true } }) ∧
    (∀ st2 : ClientConnState, st2.responseRead = true →
        clientConnRead st2 env =
          { n := env.passthroughN,
            err := if env.passthroughErr then some .wrappedQUIC else none,
            state := st2 }) := by
  refine ⟨?_, ?_, ?_⟩
  · intro he; unfold clientConnRead; rw [h, he]; rfl
  · intro he; unfold clientConnRead; rw [h, he]; rfl
  · intro st2 h2; unfold clientConnRead; rw [h2]; rfl

/-- Witness for `client_first_read_response`: an error-status frame yields a
remote error with the latch still unset; an OK-status frame yields the
pass-through read with the latch set. -/
theorem client_first_read_response_witness :
    clientConnRead c8State c8EnvErr =
      { n := 0, err := some (.remoteError "boom"), state := c8State } ∧
    clientConnRead c8State c8EnvOk =
      { n := 7, err := none, state := { c8State with responseRead := true } } :=
  ⟨(client_first_read_response c8State c8EnvErr "boom" rfl).1 rfl,
   (client_first_read_response c8State c8EnvOk "" rfl).2.1 rfl⟩

/-- Claim C9. `ListenPacket` fails with the invalid error before calling
`offer` when UDP is locally disabled; after a successful offer it fails with
the UDP-disabled-by-server error when the connection records UDP as
disabled; otherwise it returns the current session counter as a fresh id
(fresh relative to the registered ids, all below the counter), increments
the `uint32` counter, and registers the new packet conn under that id. -/
theorem listen_packet_spec (cUdpDisabled : Bool)
    (offerResult : Option ClientQUICConnection) :
    (cUdpDisabled = true →
        listenPacket cUdpDisabled offerResult =
          { outcome := .error .errInvalid, offerAttempted := false }) ∧
    (∀ conn : ClientQUICConnection, cUdpDisabled = false → offerResult = some conn →
        conn.udpDisabled = true →
        (listenPacket cUdpDisabled offerResult).outcome = .error .udpDisabledByServer) ∧
    (∀ conn : ClientQUICConnection, cUdpDisabled = false → offerResult = some conn →
        conn.udpDisabled = false → (∀ k ∈ conn.udpConnMap, k < conn.udpSessionID) →
        (listenPacket cUdpDisabled offerResult).outcome =
          .ok (conn.udpSessionID,
            { conn with udpSessionID := (conn.udpSessionID + 1) % 4294967296,
                        udpConnMap := conn.udpSessionID :: conn.udpConnMap }) ∧
        conn.udpSessionID ∉ conn.udpConnMap ∧
        conn.udpSessionID ∈ conn.udpSessionID :: conn.udpConnMap) := by
  refine ⟨?_, ?_, ?_⟩
  · intro h; simp [listenPacket, h]
  · intro conn h ho hu; simp [listenPacket, h, ho, hu]
  · intro conn h ho hu hinv
    refine ⟨by simp [listenPacket, h, ho, hu], ?_, List.mem_cons_self _ _⟩
    intro hmem
    exact absurd (hinv _ hmem) (lt_irrefl _)

/-- Witness for `listen_packet_spec`: the local guard, the per-connection
guard, and a concrete allocation registering session id 2. -/
theorem listen_packet_spec_witness :
    listenPacket true none = { outcome := .error .errInvalid, offerAttempted := false } ∧
    (listenPacket false (some c9ConnDisabled)).outcome = .error .udpDisabledByServer ∧
    (listenPacket false (some c9Conn)).outcome =
      .ok (2, { udpDisabled := false, congestion := .bbr 0,
                udpSessionID := 3, udpConnMap := [2, 1, 0] }) ∧
    (2 : Nat) ∉ c9Conn.udpConnMap := by
  refine ⟨(listen_packet_spec true none).1 rfl,
          (listen_packet_spec false (some c9ConnDisabled)).2.1 c9ConnDisabled rfl rfl rfl,
          ?_, ?_⟩
  · have h := ((listen_packet_spec false (some c9Conn)).2.2 c9Conn rfl rfl rfl
      (by decide)).1
    simpa [c9Conn] using h
  · exact ((listen_packet_spec false (some c9Conn)).2.2 c9Conn rfl rfl rfl
      (by decide)).2.1

/-- Helper: once the latch is set, no operation writes a frame or changes
the latch. -/
theorem serverConnStep_written {st : ServerConnState}
    (h : st.responseWritten = true) (op : ServerConnOp) :
    (serverConnStep st op).state = st ∧ (serverConnStep st op).responseFrames = [] := by
  cases op <;> simp [serverConnStep, h]

/-- Helper: from a latched state a trace writes no frames. -/
theorem serverConnTrace_of_written (ops : List ServerConnOp) :
    ∀ st : ServerConnState, st.responseWritten = true → (serverConnTrace st ops).2 = 0 := by
  induction ops with
  | nil => intro st h; rfl
  | cons op ops ih =>
    intro st h
    have hs := serverConnStep_written h op
    have hrest := ih (serverConnStep st op).state (by rw [hs.1]; exact h)
    simp [serverConnTrace, hs.2, hrest]

/-- Helper: from an unlatched state every operation writes exactly one frame
and sets the latch. -/
theorem serverConnStep_unwritten {st : ServerConnState}
    (h : st.responseWritten = false) (op : ServerConnOp) :
    (serverConnStep st op).responseFrames.length = 1 ∧
    (serverConnStep st op).state.responseWritten = true := by
  cases op <;> simp [serverConnStep, h]

/-- Claim C10. On a server stream conn, at most one TCP-response frame is
ever written: the first of `HandshakeSuccess`, `HandshakeFailure` or `Write`
latches `responseWritten` and writes the single response frame (a first
`Write` sends a success frame carrying the payload as initial chunk and
reports the payload length to the caller); once `responseWritten` is set,
`HandshakeSuccess` returns nil and `HandshakeFailure` returns the
closed error, neither writing anything. -/
theorem server_response_once :
    (∀ (st : ServerConnState) (p : List Nat), st.responseWritten = false →
        serverConnStep st (.write p) =
          { state := { responseWritten := true },
            responseFrames := [.frame true "" p], ret := .writeRet p.length }) ∧
    (∀ (st : ServerConnState) (op : ServerConnOp), st.responseWritten = false →
        (serverConnStep st op).responseFrames.length = 1 ∧
        (serverConnStep st op).state.responseWritten = true) ∧
    (∀ (st : ServerConnState) (m : String), st.responseWritten = true →
        serverConnStep st .handshakeSuccess =
          { state := st, responseFrames := [], ret := .hsRet false } ∧
        serverConnStep st (.handshakeFailure m) =
          { state := st, responseFrames := [], ret := .hsRet true }) ∧
    (∀ ops : List ServerConnOp,
        (serverConnTrace { responseWritten := false } ops).2 ≤ 1) := by
  refine ⟨?_, ?_, ?_, ?_⟩
  · intro st p h; unfold serverConnStep; rw [h]; rfl
  · intro st op h; exact serverConnStep_unwritten h op
  · intro st m h
    constructor <;> simp [serverConnStep, h]
  · intro ops
    cases ops with
    | nil => simp [serverConnTrace]
    | cons op ops =>
      have h1 := @serverConnStep_unwritten { responseWritten := false } rfl op
      have h0 := serverConnTrace_of_written ops
        (serverConnStep { responseWritten := false } op).state h1.2
      simp [serverConnTrace, h1.1, h0]

/-- Witness for `server_response_once`: a first write sends the success
frame with the payload, repeated handshakes on a latched conn return nil
respectively the closed error without writing, and a concrete two-operation
trace writes one frame. -/
theorem server_response_once_witness :
    serverConnStep { responseWritten := false } (.write [1, 2]) =
      { state := { responseWritten := true },
        responseFrames := [.frame true "" [1, 2]], ret := .writeRet 2 } ∧
    serverConnStep { responseWritten := true } .handshakeSuccess =
      { state := { responseWritten := true }, responseFrames := [], ret := .hsRet false } ∧
    serverConnStep { responseWritten := true } (.handshakeFailure "x") =
      { state := { responseWritten := true }, responseFrames := [], ret := .hsRet true } ∧
    (serverConnTrace { responseWritten := false } [.handshakeSuccess, .write [3]]).2 ≤ 1 :=
  ⟨server_response_once.1 { responseWritten := false } [1, 2] rfl,
   (server_response_once.2.2.1 { responseWritten := true } "x" rfl).1,
   (server_response_once.2.2.1 { responseWritten := true } "x" rfl).2,
   server_response_once.2.2.2 [.handshakeSuccess, .write [3]]⟩

end Hysteria2
